import Mathlib

/-!
Shallow embedding of the GridGain Node.js thin client's enum serialization,
query argument checking and connection-routing layers, together with proofs
about them.  The JavaScript/TypeScript sources embedded here are:
  - EnumItem (constructor, setters, _write, _read),
  - ArgumentChecker (isInteger, notNull, invalidArgument),
  - Errors.ts error factories,
  - SqlQuery.setType / SqlFieldsQuery (Query.ts),
  - the Partition-Awareness Router dispatch (modelled from the spec, its
    source file being absent from the excerpt; only its integration tests are).
-/

namespace GridGain

/-- Values as the JavaScript runtime distinguishes them, as far as the
argument checks of ArgumentChecker need: null, undefined, integer numbers
(Number.isInteger true), non-integer numbers, strings, and everything else. -/
inductive JsVal where
  | jsNull
  | jsUndefined
  | int (n : Int)
  | nonIntNumber
  | str (s : String)
  | other
deriving DecidableEq, Repr

/-- Error values thrown by the client (Errors.ts).  Message strings produced by
Util.format are not modelled; each constructor records which factory built it.
jsTypeError stands for a raw JavaScript TypeError (e.g. reading a property of
undefined), which is not an IgniteClientError at all. -/
inductive IgniteErr where
  | illegalArgumentError
  | enumSerializationError (serialize : Bool)
  | internalError
  | jsTypeError
deriving DecidableEq, Repr

/-- Modelled from the spec: MessageBuffer (spec 4.1); the MessageBuffer source
file is absent from the excerpt.  Only the int32 primitives are needed here:
each list entry stands for one int32 appended by writeInteger (4 bytes on the
wire, little-endian); readInteger consumes one entry at the read position, and
reading past the filled region is an internal protocol error. -/
structure MessageBuffer where
  data : List Int
  readPos : Nat
deriving DecidableEq, Repr

def MessageBuffer.writeInteger (b : MessageBuffer) (n : Int) : MessageBuffer :=
  { b with data := b.data ++ [n] }

def MessageBuffer.readInteger (b : MessageBuffer) : Option (Int × MessageBuffer) :=
  match b.data.get? b.readPos with
  | some n => some (n, { b with readPos := b.readPos + 1 })
  | none => none

/-- TypeDescriptor (spec 3): the part the enum code path reads.  enumValues is
an ordered list of (name, numericValue) pairs; none models a null/undefined
enumValues field (the JS code guards it with a truthiness test, and an empty
array is truthy, hence Option (List _) rather than just a list). -/
structure TypeDescriptor where
  typeId : Int
  isEnum : Bool
  enumValues : Option (List (String × Int))
deriving DecidableEq, Repr

/-- communicator.typeStorage.getType: a typeId either resolves to a registered
descriptor or to none (spec 4.3).  The asynchronous fetch is irrelevant to the
claims and is modelled as a pure lookup. -/
def TypeStorage := Int → Option TypeDescriptor

/-- ArgumentChecker.isInteger: throws IllegalArgumentError unless the argument
is an integer number.  argName only feeds the elided message text.  It returns
the checked integer so that the caller can store it, mirroring the JS pattern
where the raw (checked) argument is assigned to the field. -/
def ArgumentChecker.isInteger (arg : JsVal) (_argName : String) : Except IgniteErr Int :=
  match arg with
  | .int n => .ok n
  | _ => .error .illegalArgumentError

/-- ArgumentChecker.notNull: throws IllegalArgumentError when the argument is
null or undefined. -/
def ArgumentChecker.notNull (arg : JsVal) (_argName : String) : Except IgniteErr Unit :=
  if arg = JsVal.jsNull ∨ arg = JsVal.jsUndefined then .error .illegalArgumentError
  else .ok ()

/-- ArgumentChecker.invalidArgument: throws IllegalArgumentError when the
argument is NOT null and NOT undefined (the source's `type` parameter only
feeds the elided message text). -/
def ArgumentChecker.invalidArgument (arg : JsVal) (_argName : String) : Except IgniteErr Unit :=
  if arg ≠ JsVal.jsNull ∧ arg ≠ JsVal.jsUndefined then .error .illegalArgumentError
  else .ok ()

/-- EnumItem (part_002): Id of the enum type plus optional ordinal, name and
value; a JS null field is modelled as none. -/
structure EnumItem where
  typeId : Int
  ordinal : Option Int
  name : Option String
  value : Option Int
deriving DecidableEq, Repr

/-- EnumItem.setTypeId: check the argument is an integer (throwing
IllegalArgumentError otherwise, with the field untouched), store it, and
return `this` (the updated item). -/
def EnumItem.setTypeId (item : EnumItem) (typeId : JsVal) :
    Except IgniteErr Unit × EnumItem :=
  match ArgumentChecker.isInteger typeId "typeId" with
  | .ok n => (.ok (), { item with typeId := n })
  | .error e => (.error e, item)

/-- EnumItem.setOrdinal: same checking pattern as setTypeId, for `_ordinal`. -/
def EnumItem.setOrdinal (item : EnumItem) (ordinal : JsVal) :
    Except IgniteErr Unit × EnumItem :=
  match ArgumentChecker.isInteger ordinal "ordinal" with
  | .ok n => (.ok (), { item with ordinal := some n })
  | .error e => (.error e, item)

/-- EnumItem.setValue: same checking pattern as setTypeId, for `_value`. -/
def EnumItem.setValue (item : EnumItem) (value : JsVal) :
    Except IgniteErr Unit × EnumItem :=
  match ArgumentChecker.isInteger value "value" with
  | .ok n => (.ok (), { item with value := some n })
  | .error e => (.error e, item)

/-- The EnumItem constructor: `this.setTypeId(typeId)` (which may throw), then
ordinal, name and value are initialized to null. -/
def EnumItem.create (typeId : JsVal) : Except IgniteErr EnumItem :=
  match ArgumentChecker.isInteger typeId "typeId" with
  | .ok n => .ok { typeId := n, ordinal := none, name := none, value := none }
  | .error e => .error e

/-- The per-entry test of the `_write` search loop:
`this._name === type.enumValues[i][0] || this._value === type.enumValues[i][1]`
(strict equality against a null field is always false, which Option equality
against `some _` captures). -/
def EnumItem.entryMatches (item : EnumItem) (e : String × Int) : Bool :=
  decide (item.name = some e.1 ∨ item.value = some e.2)

/-- EnumItem._write (part_002 lines 169-193).  Looks the typeId up in type
storage; a missing or non-enum descriptor throws EnumSerializationError before
anything is written.  Then the typeId is written; a non-null ordinal is written
as-is (unvalidated); otherwise, with name or value set, the first index whose
entry matches by name or value is written; otherwise IllegalArgumentError is
thrown with the typeId already in the buffer. -/
def EnumItem.write (storage : TypeStorage) (item : EnumItem) (buffer : MessageBuffer) :
    Except IgniteErr Unit × MessageBuffer :=
  match storage item.typeId with
  | none => (.error (.enumSerializationError true), buffer)
  | some ty =>
    if ty.isEnum = false then
      (.error (.enumSerializationError true), buffer)
    else
      let buffer1 := buffer.writeInteger item.typeId
      match item.ordinal with
      | some ord => (.ok (), buffer1.writeInteger ord)
      | none =>
        if item.name ≠ none ∨ item.value ≠ none then
          match ty.enumValues with
          | some vals =>
            match vals.findIdx? item.entryMatches with
            | some i => (.ok (), buffer1.writeInteger (Int.ofNat i))
            | none => (.error .illegalArgumentError, buffer1)
          | none => (.error .illegalArgumentError, buffer1)
        else (.error .illegalArgumentError, buffer1)

/-- EnumItem._read (part_002 lines 198-211).  Reads typeId and ordinal (each
assignment mutating the item before any check can throw), then validates the
descriptor.  JS subtlety: the guard is `type.enumValues.length <= this._ordinal`,
so a NEGATIVE ordinal passes it; `type.enumValues[ordinal]` is then undefined
and `undefined[0]` raises a raw TypeError, not an EnumSerializationError. -/
def EnumItem.read (storage : TypeStorage) (item : EnumItem) (buffer : MessageBuffer) :
    Except IgniteErr Unit × EnumItem × MessageBuffer :=
  match buffer.readInteger with
  | none => (.error .internalError, item, buffer)
  | some (tid, buffer1) =>
    let item1 := { item with typeId := tid }
    match buffer1.readInteger with
    | none => (.error .internalError, item1, buffer1)
    | some (ord, buffer2) =>
      let item2 := { item1 with ordinal := some ord }
      match storage tid with
      | none => (.error (.enumSerializationError false), item2, buffer2)
      | some ty =>
        if ty.isEnum = false then
          (.error (.enumSerializationError false), item2, buffer2)
        else
          match ty.enumValues with
          | none => (.error (.enumSerializationError false), item2, buffer2)
          | some vals =>
            if (vals.length : Int) ≤ ord then
              (.error (.enumSerializationError false), item2, buffer2)
            else if ord < 0 then
              (.error .jsTypeError, item2, buffer2)
            else if h : ord.toNat < vals.length then
              let entry := vals.get ⟨ord.toNat, h⟩
              (.ok (), { item2 with name := some entry.1, value := some entry.2 }, buffer2)
            else
              (.error .jsTypeError, item2, buffer2)

/-- The part of the SqlQuery/SqlFieldsQuery state that setType touches
(Query.ts).  isFieldsQuery records whether the instance is of the
SqlFieldsQuery subclass (the `this instanceof SqlFieldsQuery` test in
SqlQuery.setType); the other query fields do not interact with setType and
are omitted.  `_type` holds the raw argument, possibly null. -/
structure SqlQueryState where
  isFieldsQuery : Bool
  type : JsVal
deriving DecidableEq, Repr

/-- SqlQuery.setType (Query.ts lines 148-157): a SqlFieldsQuery instance
checks the argument with ArgumentChecker.invalidArgument (throws when NOT
null/undefined), a plain SqlQuery with ArgumentChecker.notNull (throws when
null/undefined); if the check passes the argument is stored. -/
def SqlQueryState.setType (q : SqlQueryState) (t : JsVal) :
    Except IgniteErr Unit × SqlQueryState :=
  match (if q.isFieldsQuery then ArgumentChecker.invalidArgument t "type"
         else ArgumentChecker.notNull t "type") with
  | .ok _ => (.ok (), { q with type := t })
  | .error e => (.error e, q)

/-- Modelled from the spec: a Connection in the Router's pool (spec 3, 4.4):
the node it goes to and whether it is currently Open (isOpen = false is the
terminal Closed state). -/
structure Conn where
  nodeId : Nat
  isOpen : Bool
deriving DecidableEq, Repr

/-- Modelled from the spec: the Router-level "cluster unavailable" failure of
spec 4.5 step 4 and spec 8. -/
inductive RouterErr where
  | clusterUnavailable
deriving DecidableEq, Repr

/-- Modelled from the spec: Partition-Awareness Router dispatch, spec 4.5
steps 3-4; the Router source file is absent from the excerpt (only its
integration tests are under src/spec).  `owner` is the node owning the key's
partition per the PartitionMap; `result` is the operation's correct outcome:
per spec 4.5 steps 3 and 5 any node serves the operation correctly (routing is
a performance choice only), so the outcome does not depend on which connection
carries the request.  Step 3 routes to the pool's connection to the owning
node when there is one, else to the first available open connection.  Step 4:
if the chosen connection turns out Closed, it is removed from the pool and the
dispatch is retried once against a fallback open connection; if no open
connection remains at all the operation fails with "cluster unavailable". -/
def routerDispatch (pool : List Conn) (owner : Nat) (result : α) :
    Except RouterErr α :=
  match pool.find? (fun c => c.nodeId == owner) with
  | some c =>
    if c.isOpen then .ok result
    else
      match (pool.erase c).find? (fun c2 => c2.isOpen) with
      | some _ => .ok result
      | none => .error .clusterUnavailable
  | none =>
    match pool.find? (fun c => c.isOpen) with
    | some _ => .ok result
    | none => .error .clusterUnavailable

/-! Concrete registered-enum type storages used by witnesses and
counterexamples. -/

/-- Enum entries (name, value): A maps to 10, B maps to 20. -/
def valsAB : List (String × Int) := [("A", 10), ("B", 20)]

/-- A storage where type id 1 is a registered enum with entries valsAB. -/
def storageAB : TypeStorage := fun t =>
  if t = 1 then some ⟨1, true, some valsAB⟩ else none

/-- A storage where type id 1 is a registered enum with the single entry
A mapping to 10. -/
def storageA : TypeStorage := fun t =>
  if t = 1 then some ⟨1, true, some [("A", 10)]⟩ else none

/-! ## C7 - argument checking in the EnumItem setters and constructor -/

/-- C7: for every argument that is null, undefined, or not an integer, each of
EnumItem.setTypeId, setOrdinal and setValue throws an IllegalArgumentError
immediately with the item (in particular the corresponding field) unchanged,
and the constructor, for typeId, throws as well; for every integer argument
the setter stores it and returns the same EnumItem instance, updated only in
that field. -/
theorem enumItem_setter_check (item : EnumItem) (x : JsVal) :
    ((∀ n : Int, x ≠ JsVal.int n) →
      item.setTypeId x = (.error .illegalArgumentError, item) ∧
      item.setOrdinal x = (.error .illegalArgumentError, item) ∧
      item.setValue x = (.error .illegalArgumentError, item) ∧
      EnumItem.create x = .error .illegalArgumentError) ∧
    (∀ n : Int, x = JsVal.int n →
      item.setTypeId x = (.ok (), { item with typeId := n }) ∧
      item.setOrdinal x = (.ok (), { item with ordinal := some n }) ∧
      item.setValue x = (.ok (), { item with value := some n })) := by
  cases x with
  | int n =>
    refine ⟨fun h => absurd rfl (h n), fun m hm => ?_⟩
    cases hm
    exact ⟨rfl, rfl, rfl⟩
  | jsNull => exact ⟨fun _ => ⟨rfl, rfl, rfl, rfl⟩, fun m hm => by cases hm⟩
  | jsUndefined => exact ⟨fun _ => ⟨rfl, rfl, rfl, rfl⟩, fun m hm => by cases hm⟩
  | nonIntNumber => exact ⟨fun _ => ⟨rfl, rfl, rfl, rfl⟩, fun m hm => by cases hm⟩
  | str s => exact ⟨fun _ => ⟨rfl, rfl, rfl, rfl⟩, fun m hm => by cases hm⟩
  | other => exact ⟨fun _ => ⟨rfl, rfl, rfl, rfl⟩, fun m hm => by cases hm⟩

/-- Witness for C7: the null argument is rejected with the item unchanged, the
integer 7 is stored by setValue. -/
theorem enumItem_setter_check_witness :
    (⟨0, none, none, none⟩ : EnumItem).setTypeId JsVal.jsNull =
      (.error .illegalArgumentError, (⟨0, none, none, none⟩ : EnumItem)) ∧
    (⟨0, none, none, none⟩ : EnumItem).setValue (JsVal.int 7) =
      (.ok (), (⟨0, none, none, some 7⟩ : EnumItem)) :=
  ⟨((enumItem_setter_check ⟨0, none, none, none⟩ JsVal.jsNull).1
      (fun _ h => JsVal.noConfusion h)).1,
   ((enumItem_setter_check ⟨0, none, none, none⟩ (JsVal.int 7)).2 7 rfl).2.2⟩

/-! ## C10 - the flipped null-ness requirement of setType -/

/-- C10: the null-ness requirement of setType flips between query classes: for
every non-null, non-undefined argument, a SqlFieldsQuery's setType throws an
IllegalArgumentError with the type field unchanged while a plain SqlQuery's
setType stores the argument; conversely a plain SqlQuery's setType(null)
throws an IllegalArgumentError while a SqlFieldsQuery's setType(null) succeeds
and stores null. -/
theorem sqlQuery_setType_nullness_flip (q : SqlQueryState) (t : JsVal) :
    (t ≠ JsVal.jsNull → t ≠ JsVal.jsUndefined →
      (q.isFieldsQuery = true →
        q.setType t = (.error .illegalArgumentError, q)) ∧
      (q.isFieldsQuery = false →
        q.setType t = (.ok (), { q with type := t }))) ∧
    ((q.isFieldsQuery = false →
        q.setType JsVal.jsNull = (.error .illegalArgumentError, q)) ∧
     (q.isFieldsQuery = true →
        q.setType JsVal.jsNull = (.ok (), { q with type := JsVal.jsNull }))) := by
  refine ⟨fun h1 h2 => ⟨fun hf => ?_, fun hf => ?_⟩, fun hf => ?_, fun hf => ?_⟩
  · simp [SqlQueryState.setType, ArgumentChecker.invalidArgument, hf, h1, h2]
  · simp [SqlQueryState.setType, ArgumentChecker.notNull, hf, h1, h2]
  · simp [SqlQueryState.setType, ArgumentChecker.notNull, hf]
  · simp [SqlQueryState.setType, ArgumentChecker.invalidArgument, hf]

/-- Witness for C10: a non-null string is rejected by a SqlFieldsQuery and a
null is rejected by a plain SqlQuery. -/
theorem sqlQuery_setType_nullness_flip_witness :
    SqlQueryState.setType ⟨true, JsVal.jsUndefined⟩ (JsVal.str "T") =
      (.error .illegalArgumentError, ⟨true, JsVal.jsUndefined⟩) ∧
    SqlQueryState.setType ⟨false, JsVal.jsUndefined⟩ JsVal.jsNull =
      (.error .illegalArgumentError, ⟨false, JsVal.jsUndefined⟩) :=
  ⟨((sqlQuery_setType_nullness_flip ⟨true, JsVal.jsUndefined⟩ (JsVal.str "T")).1
      (by simp) (by simp)).1 rfl,
   ((sqlQuery_setType_nullness_flip ⟨false, JsVal.jsUndefined⟩ JsVal.jsNull).2).1 rfl⟩

/-! ## C8 - effect of EnumItem._write on the output buffer -/

/-- C8: effect of EnumItem._write on the output MessageBuffer: on success
exactly two int32 values are appended, the typeId followed by the resolved
ordinal (and the read position is untouched); on the failure because the type
is not a registered enum type nothing is appended; on the failure because no
ordinal, name or value resolves, the 4-byte typeId has already been appended
and is not rolled back. -/
theorem enumItem_write_buffer_effect (storage : TypeStorage) (item : EnumItem)
    (buffer buffer' : MessageBuffer) (r : Except IgniteErr Unit)
    (hrun : EnumItem.write storage item buffer = (r, buffer')) :
    (r = .ok () → ∃ ord, buffer' = ⟨buffer.data ++ [item.typeId, ord], buffer.readPos⟩) ∧
    (∀ s, r = .error (.enumSerializationError s) → buffer' = buffer) ∧
    (r = .error .illegalArgumentError →
      buffer' = ⟨buffer.data ++ [item.typeId], buffer.readPos⟩) := by
  unfold EnumItem.write at hrun
  split at hrun
  · cases hrun; simp
  · split at hrun
    · cases hrun; simp
    · split at hrun
      · rename_i ord _
        cases hrun
        refine ⟨fun _ => ⟨ord, ?_⟩, by simp, by simp⟩
        simp [MessageBuffer.writeInteger]
      · split at hrun
        · split at hrun
          · split at hrun
            · rename_i i _
              cases hrun
              refine ⟨fun _ => ⟨Int.ofNat i, ?_⟩, by simp, by simp⟩
              simp [MessageBuffer.writeInteger]
            · cases hrun
              exact ⟨by simp, by simp, fun _ => by simp [MessageBuffer.writeInteger]⟩
          · cases hrun
            exact ⟨by simp, by simp, fun _ => by simp [MessageBuffer.writeInteger]⟩
        · cases hrun
          exact ⟨by simp, by simp, fun _ => by simp [MessageBuffer.writeInteger]⟩

/-- Witness for C8, exercising all three buffer outcomes on concrete inputs:
a successful write of ordinal 0 appends [1, 0]; an unregistered type id leaves
the buffer empty; a write with nothing resolvable leaves exactly the typeId. -/
theorem enumItem_write_buffer_effect_witness :
    (∃ ord, (EnumItem.write storageA ⟨1, some 0, none, none⟩ ⟨[], 0⟩).2 =
      ⟨[(1 : Int), ord], 0⟩) ∧
    (EnumItem.write storageA ⟨2, some 0, none, none⟩ ⟨[], 0⟩).2 = ⟨[], 0⟩ ∧
    (EnumItem.write storageA ⟨1, none, none, none⟩ ⟨[], 0⟩).2 = ⟨[(1 : Int)], 0⟩ :=
  ⟨(enumItem_write_buffer_effect storageA ⟨1, some 0, none, none⟩ ⟨[], 0⟩ _ _ rfl).1 rfl,
   (enumItem_write_buffer_effect storageA ⟨2, some 0, none, none⟩ ⟨[], 0⟩ _ _ rfl).2.1
     true rfl,
   (enumItem_write_buffer_effect storageA ⟨1, none, none, none⟩ ⟨[], 0⟩ _ _ rfl).2.2 rfl⟩

/-! ## C9 - invariant established by a successful EnumItem._read -/

/-- C9: after every successful EnumItem._read, the item's typeId resolves to a
registered enum descriptor with an enumValues list, its ordinal is a valid
index into that list (0 <= ordinal < enumValues.length), and its name and
value are exactly the first and second components of the entry at that
ordinal: the selector fields are mutually consistent. -/
theorem enumItem_read_invariant (storage : TypeStorage) (item0 item' : EnumItem)
    (buffer buffer' : MessageBuffer)
    (hrun : EnumItem.read storage item0 buffer = (.ok (), item', buffer')) :
    ∃ (ty : TypeDescriptor) (vals : List (String × Int)) (o : Int),
      storage item'.typeId = some ty ∧ ty.isEnum = true ∧ ty.enumValues = some vals ∧
      item'.ordinal = some o ∧ 0 ≤ o ∧ o < (vals.length : Int) ∧
      ∃ h : o.toNat < vals.length,
        item'.name = some (vals.get ⟨o.toNat, h⟩).1 ∧
        item'.value = some (vals.get ⟨o.toNat, h⟩).2 := by
  unfold EnumItem.read at hrun
  split at hrun
  · cases hrun
  · split at hrun
    · cases hrun
    · split at hrun
      · cases hrun
      · split at hrun
        · cases hrun
        · split at hrun
          · cases hrun
          · split at hrun
            · cases hrun
            · split at hrun
              · cases hrun
              · split at hrun
                · cases hrun
                  rename_i x2 ord x3 ty hty hen x4 vals hvals hle hneg h heq2
                  refine ⟨ty, vals, ord, hty, ?_, hvals, rfl, ?_, ?_, h, rfl, rfl⟩
                  · simpa using hen
                  · exact Int.not_lt.mp hneg
                  · exact Int.not_le.mp hle
                · cases hrun

/-- Witness for C9: the item produced by the successful read of (typeId 1,
ordinal 0) against storageA satisfies the invariant. -/
theorem enumItem_read_invariant_witness :
    ∃ (ty : TypeDescriptor) (vals : List (String × Int)) (o : Int),
      storageA (⟨1, some 0, some "A", some 10⟩ : EnumItem).typeId = some ty ∧
      ty.isEnum = true ∧ ty.enumValues = some vals ∧
      (⟨1, some 0, some "A", some 10⟩ : EnumItem).ordinal = some o ∧ 0 ≤ o ∧
      o < (vals.length : Int) ∧
      ∃ h : o.toNat < vals.length,
        (⟨1, some 0, some "A", some 10⟩ : EnumItem).name = some (vals.get ⟨o.toNat, h⟩).1 ∧
        (⟨1, some 0, some "A", some 10⟩ : EnumItem).value = some (vals.get ⟨o.toNat, h⟩).2 :=
  enumItem_read_invariant storageA ⟨0, none, none, none⟩ ⟨1, some 0, some "A", some 10⟩
    ⟨[1, 0], 0⟩ ⟨[1, 0], 2⟩ rfl

/-! ## C1 - resolution precedence inside EnumItem._write -/

/-- C1 counterexample: against enumValues [(A,10), (B,20)], the item with
ordinal null, name "B" (the name of the entry at index 1) and value 10 (the
value of the entry at index 0) is encoded as index 0 - the entry matched by
VALUE - not index 1, the entry whose name matches.  Name does not take
precedence over value: the search loop takes the first index matched by
either field. -/
theorem enumItem_write_name_precedence_cex :
    EnumItem.write storageAB ⟨1, none, some "B", some 10⟩ ⟨[], 0⟩ =
      (.ok (), ⟨[1, 0], 0⟩) ∧
    (valsAB.get ⟨1, by decide⟩).1 = "B" ∧ (valsAB.get ⟨0, by decide⟩).1 ≠ "B" ∧
    (valsAB.get ⟨0, by decide⟩).2 = 10 :=
  ⟨rfl, rfl, by decide, rfl⟩

/-- C1 amended: when the typeId resolves to a registered enum descriptor, a
non-null ordinal is written as-is (name and value are ignored); when the
ordinal is null, the index written is the index of the FIRST entry of
enumValues matched by the item's name or by its value - the smallest matching
index wins, whichever of the two fields matched, with no precedence of name
over value. -/
theorem enumItem_write_resolution_order (storage : TypeStorage) (item : EnumItem)
    (buffer : MessageBuffer) (ty : TypeDescriptor)
    (hty : storage item.typeId = some ty) (hen : ty.isEnum = true) :
    (∀ o, item.ordinal = some o →
      EnumItem.write storage item buffer =
        (.ok (), ⟨buffer.data ++ [item.typeId, o], buffer.readPos⟩)) ∧
    (∀ vals, item.ordinal = none → ty.enumValues = some vals →
      ∀ i (hi : i < vals.length),
        item.entryMatches (vals.get ⟨i, hi⟩) = true →
        (∀ j (hj : j < i), item.entryMatches (vals.get ⟨j, Nat.lt_trans hj hi⟩) = false) →
        EnumItem.write storage item buffer =
          (.ok (), ⟨buffer.data ++ [item.typeId, (i : Int)], buffer.readPos⟩)) := by
  constructor
  · intro o ho
    simp [EnumItem.write, hty, hen, ho, MessageBuffer.writeInteger]
  · intro vals hord hvals i hi hmatch hleast
    have hfind : vals.findIdx? item.entryMatches = some i := by
      rw [List.findIdx?_eq_some_iff_getElem]
      exact ⟨hi, by simpa using hmatch, fun j hj => by simpa using hleast j hj⟩
    have hset : item.name ≠ none ∨ item.value ≠ none := by
      have := hmatch
      unfold EnumItem.entryMatches at this
      rcases of_decide_eq_true this with h | h
      · exact Or.inl (by simp [h])
      · exact Or.inr (by simp [h])
    simp [EnumItem.write, hty, hen, hord, hvals, hfind, hset, MessageBuffer.writeInteger]

/-- Witness for C1 amended: the ordinal 3 is written as-is, and against
enumValues [(A,10), (B,20)] the name-and-value item (name "B", value 10) is
resolved to the first matching index, 0. -/
theorem enumItem_write_resolution_order_witness :
    EnumItem.write storageAB ⟨1, some 3, none, none⟩ ⟨[], 0⟩ =
      (.ok (), ⟨[1, 3], 0⟩) ∧
    EnumItem.write storageAB ⟨1, none, some "B", some 10⟩ ⟨[], 0⟩ =
      (.ok (), ⟨[1, (0 : Nat)], 0⟩) :=
  ⟨(enumItem_write_resolution_order storageAB ⟨1, some 3, none, none⟩ ⟨[], 0⟩
      ⟨1, true, some valsAB⟩ rfl rfl).1 3 rfl,
   (enumItem_write_resolution_order storageAB ⟨1, none, some "B", some 10⟩ ⟨[], 0⟩
      ⟨1, true, some valsAB⟩ rfl rfl).2 valsAB rfl rfl 0 (by decide) (by decide)
      (fun j hj => absurd hj (Nat.not_lt_zero j))⟩

/-! ## C2 - round-trip of EnumItem encode/decode -/

/-- C2 counterexample: the item (typeId 1, ordinal 0, name null, value null)
encodes successfully against storageA, but decoding the produced bytes yields
an item whose name and value have been filled in from the descriptor
("A" and 10), so decode(encode(v)) differs from v on the name and value
fields. -/
theorem enumItem_roundtrip_cex :
    (EnumItem.write storageA ⟨1, some 0, none, none⟩ ⟨[], 0⟩).1 = .ok () ∧
    (EnumItem.read storageA ⟨0, none, none, none⟩
        (EnumItem.write storageA ⟨1, some 0, none, none⟩ ⟨[], 0⟩).2).1 = .ok () ∧
    (EnumItem.read storageA ⟨0, none, none, none⟩
        (EnumItem.write storageA ⟨1, some 0, none, none⟩ ⟨[], 0⟩).2).2.1 ≠
      ⟨1, some 0, none, none⟩ :=
  ⟨rfl, rfl, by decide⟩

/-- C2 amended: decode(encode(v)) == v holds for the fully resolved items:
whenever v's typeId resolves to a registered enum descriptor and v's ordinal,
name and value are all set and mutually consistent with the descriptor's
enumValues entry at the ordinal, encoding (into an empty request buffer) and
decoding (with a fresh item) returns exactly v - equal typeId, ordinal, name
and value.  For items with unset optional fields, decoding returns the fully
resolved item instead of v (see the counterexample). -/
theorem enumItem_roundtrip_consistent (storage : TypeStorage) (item : EnumItem)
    (ty : TypeDescriptor) (vals : List (String × Int)) (o : Int)
    (hty : storage item.typeId = some ty) (hen : ty.isEnum = true)
    (hvals : ty.enumValues = some vals)
    (hord : item.ordinal = some o) (h0 : 0 ≤ o) (hlt : o.toNat < vals.length)
    (hname : item.name = some (vals.get ⟨o.toNat, hlt⟩).1)
    (hvalue : item.value = some (vals.get ⟨o.toNat, hlt⟩).2) :
    (EnumItem.write storage item ⟨[], 0⟩).1 = .ok () ∧
    EnumItem.read storage ⟨0, none, none, none⟩ (EnumItem.write storage item ⟨[], 0⟩).2 =
      (.ok (), item, ⟨[item.typeId, o], 2⟩) := by
  have hw : EnumItem.write storage item ⟨[], 0⟩ =
      (.ok (), ⟨[item.typeId, o], 0⟩) := by
    simp [EnumItem.write, hty, hen, hord, MessageBuffer.writeInteger]
  refine ⟨by rw [hw], ?_⟩
  rw [hw]
  have hnle : ¬((vals.length : Int) ≤ o) := by
    rw [Int.not_le]
    calc o = (o.toNat : Int) := (Int.toNat_of_nonneg h0).symm
    _ < (vals.length : Int) := by exact_mod_cast hlt
  have hnneg : ¬(o < 0) := Int.not_lt.mpr h0
  simp only [EnumItem.read, MessageBuffer.readInteger, List.get?, hty, hen,
    hvals, hnle, hnneg]
  simp only [if_false, dif_pos hlt, if_neg hnle, if_neg hnneg]
  rcases item with ⟨tid, iord, iname, ivalue⟩
  simp at hord hname hvalue
  simp [hord, hname, hvalue, hlt]

/-- Witness for C2 amended: the fully resolved item
(typeId 1, ordinal 0, name "A", value 10) round-trips to itself. -/
theorem enumItem_roundtrip_consistent_witness :
    (EnumItem.write storageA ⟨1, some 0, some "A", some 10⟩ ⟨[], 0⟩).1 = .ok () ∧
    EnumItem.read storageA ⟨0, none, none, none⟩
        (EnumItem.write storageA ⟨1, some 0, some "A", some 10⟩ ⟨[], 0⟩).2 =
      (.ok (), ⟨1, some 0, some "A", some 10⟩, ⟨[1, 0], 2⟩) :=
  enumItem_roundtrip_consistent storageA ⟨1, some 0, some "A", some 10⟩
    ⟨1, true, some [("A", 10)]⟩ [("A", 10)] 0 rfl rfl rfl rfl (by decide)
    (by decide) rfl rfl

/-! ## C3 - when EnumItem._write succeeds -/

/-- C3 counterexample: against storageA (a registered enum whose enumValues
has length 1), the item with ordinal 5 and null name and value has nothing
resolvable - 5 is not a valid index and no name/value occurs in the table -
yet _write succeeds and emits (typeId, 5): the ordinal is written without any
validation. -/
theorem enumItem_write_unvalidated_ordinal_cex :
    EnumItem.write storageA ⟨1, some 5, none, none⟩ ⟨[], 0⟩ = (.ok (), ⟨[1, 5], 0⟩) ∧
    (([("A", (10 : Int))].length : Int) ≤ 5) :=
  ⟨rfl, by decide⟩

/-- C3 amended: when the typeId resolves to a registered enum descriptor,
_write succeeds iff the ordinal is non-null (it is then written unvalidated,
even when out of range) or the name or value matches some entry of the
descriptor's enumValues; whenever it fails past the type check, the error is
an IllegalArgumentError. -/
theorem enumItem_write_success_iff (storage : TypeStorage) (item : EnumItem)
    (buffer : MessageBuffer) (ty : TypeDescriptor)
    (hty : storage item.typeId = some ty) (hen : ty.isEnum = true) :
    ((EnumItem.write storage item buffer).1 = .ok () ↔
      (item.ordinal ≠ none ∨
        ∃ vals, ty.enumValues = some vals ∧ ∃ e ∈ vals, item.entryMatches e = true)) ∧
    ((EnumItem.write storage item buffer).1 ≠ .ok () →
      (EnumItem.write storage item buffer).1 = .error .illegalArgumentError) := by
  cases hord : item.ordinal with
  | some o =>
    have hw : (EnumItem.write storage item buffer).1 = .ok () := by
      simp [EnumItem.write, hty, hen, hord]
    rw [hw]
    exact ⟨⟨fun _ => Or.inl (by simp [hord]), fun _ => rfl⟩, fun h => absurd rfl h⟩
  | none =>
    by_cases hset : item.name ≠ none ∨ item.value ≠ none
    · cases hvals : ty.enumValues with
      | none =>
        have hw : (EnumItem.write storage item buffer).1 = .error .illegalArgumentError := by
          simp [EnumItem.write, hty, hen, hord, hvals, hset]
        rw [hw]
        refine ⟨⟨fun h => absurd h (by simp), ?_⟩, fun _ => rfl⟩
        rintro (h | ⟨vals, hv, -⟩)
        · exact absurd rfl h
        · cases hv
      | some vals =>
        cases hfind : vals.findIdx? item.entryMatches with
        | some i =>
          have hw : (EnumItem.write storage item buffer).1 = .ok () := by
            simp [EnumItem.write, hty, hen, hord, hvals, hset, hfind]
          rw [hw]
          refine ⟨⟨fun _ => Or.inr ⟨vals, rfl, ?_⟩, fun _ => rfl⟩, fun h => absurd rfl h⟩
          obtain ⟨hi, hp, -⟩ := List.findIdx?_eq_some_iff_getElem.mp hfind
          exact ⟨vals[i], List.getElem_mem hi, hp⟩
        | none =>
          have hw : (EnumItem.write storage item buffer).1 = .error .illegalArgumentError := by
            simp [EnumItem.write, hty, hen, hord, hvals, hset, hfind]
          rw [hw]
          refine ⟨⟨fun h => absurd h (by simp), ?_⟩, fun _ => rfl⟩
          rintro (h | ⟨vals2, hv2, e, he, hm⟩)
          · exact absurd rfl h
          · cases hv2
            have hfalse := List.findIdx?_eq_none_iff.mp hfind e he
            rw [hm] at hfalse
            cases hfalse
    · have hw : (EnumItem.write storage item buffer).1 = .error .illegalArgumentError := by
        simp [EnumItem.write, hty, hen, hord, hset]
      rw [hw]
      refine ⟨⟨fun h => absurd h (by simp), ?_⟩, fun _ => rfl⟩
      push_neg at hset
      obtain ⟨hn, hv⟩ := hset
      rintro (h | ⟨vals, -, e, -, hm⟩)
      · exact absurd rfl h
      · unfold EnumItem.entryMatches at hm
        rcases of_decide_eq_true hm with hmm | hmm
        · rw [hn] at hmm; cases hmm
        · rw [hv] at hmm; cases hmm

/-- Witness for C3 amended: an item with only the name "A" set resolves
against storageA and _write succeeds. -/
theorem enumItem_write_success_iff_witness :
    (EnumItem.write storageA ⟨1, none, some "A", none⟩ ⟨[], 0⟩).1 = .ok () :=
  (enumItem_write_success_iff storageA ⟨1, none, some "A", none⟩ ⟨[], 0⟩
      ⟨1, true, some [("A", 10)]⟩ rfl rfl).1.mpr
    (Or.inr ⟨[("A", 10)], rfl, ("A", 10), by decide, by decide⟩)

/-! ## C4 - error conditions of EnumItem._read -/

/-- C4 counterexample: on the buffer (typeId 1, ordinal -1) against storageA
(a registered enum descriptor with one entry), the decoded ordinal -1 is not a
valid index into enumValues, yet _read does not raise an
EnumSerializationError: the guard `enumValues.length <= ordinal` lets negative
ordinals through, `enumValues[-1]` is undefined and reading `undefined[0]`
raises a raw JavaScript TypeError instead. -/
theorem enumItem_read_negative_ordinal_cex :
    (EnumItem.read storageA ⟨0, none, none, none⟩ ⟨[1, -1], 0⟩).1 =
      .error IgniteErr.jsTypeError ∧
    (EnumItem.read storageA ⟨0, none, none, none⟩ ⟨[1, -1], 0⟩).1 ≠
      .error (.enumSerializationError false) ∧
    (EnumItem.read storageA ⟨0, none, none, none⟩ ⟨[1, -1], 0⟩).1 ≠
      .error (.enumSerializationError true) := by
  have h0 : (EnumItem.read storageA ⟨0, none, none, none⟩ ⟨[1, -1], 0⟩).1 =
      .error IgniteErr.jsTypeError := rfl
  refine ⟨h0, ?_, ?_⟩ <;> rw [h0] <;> simp

/-- C4 amended: for a buffer holding the two int32 values (typeId, ordinal),
_read raises EnumSerializationError exactly when the typeId does not resolve
to a registered descriptor with isEnum true, or the descriptor's enumValues is
missing, or enumValues.length <= ordinal; when the typeId resolves to a
registered enum with enumValues present and the ordinal is NEGATIVE, _read
instead fails with a raw JavaScript TypeError; otherwise (0 <= ordinal <
enumValues.length) it succeeds and sets the item's name and value from the
enumValues entry at the ordinal.  The six cases are exhaustive and mutually
exclusive, so this characterizes the EnumSerializationError outcomes
exactly. -/
theorem enumItem_read_error_conditions (storage : TypeStorage) (tid ord : Int)
    (r : Except IgniteErr Unit) (item' : EnumItem) (buffer' : MessageBuffer)
    (hrun : EnumItem.read storage ⟨0, none, none, none⟩ ⟨[tid, ord], 0⟩ =
      (r, item', buffer')) :
    (storage tid = none → r = .error (.enumSerializationError false)) ∧
    (∀ ty, storage tid = some ty → ty.isEnum = false →
      r = .error (.enumSerializationError false)) ∧
    (∀ ty, storage tid = some ty → ty.isEnum = true → ty.enumValues = none →
      r = .error (.enumSerializationError false)) ∧
    (∀ ty vals, storage tid = some ty → ty.isEnum = true →
      ty.enumValues = some vals → (vals.length : Int) ≤ ord →
      r = .error (.enumSerializationError false)) ∧
    (∀ ty vals, storage tid = some ty → ty.isEnum = true →
      ty.enumValues = some vals → ord < 0 → r = .error IgniteErr.jsTypeError) ∧
    (∀ ty vals, storage tid = some ty → ty.isEnum = true →
      ty.enumValues = some vals → 0 ≤ ord → ord < (vals.length : Int) →
      r = .ok () ∧ ∃ h : ord.toNat < vals.length,
        item' = ⟨tid, some ord, some (vals.get ⟨ord.toNat, h⟩).1,
          some (vals.get ⟨ord.toNat, h⟩).2⟩) := by
  simp only [EnumItem.read, MessageBuffer.readInteger, List.get?] at hrun
  refine ⟨fun hs => ?_, fun ty hs he => ?_, fun ty hs he hv => ?_,
    fun ty vals hs he hv hle => ?_, fun ty vals hs he hv hneg => ?_,
    fun ty vals hs he hv h0 hlt => ?_⟩
  · rw [hs] at hrun
    simp at hrun
    exact hrun.1.symm
  · rw [hs] at hrun
    simp [he] at hrun
    exact hrun.1.symm
  · rw [hs] at hrun
    simp [he, hv] at hrun
    exact hrun.1.symm
  · rw [hs] at hrun
    simp [he, hv, hle] at hrun
    exact hrun.1.symm
  · have hnle : ¬((vals.length : Int) ≤ ord) :=
      Int.not_le.mpr (lt_of_lt_of_le hneg (Int.ofNat_nonneg _))
    rw [hs] at hrun
    simp [he, hv, hnle, hneg] at hrun
    exact hrun.1.symm
  · have hnle : ¬((vals.length : Int) ≤ ord) := Int.not_le.mpr hlt
    have hnneg : ¬(ord < 0) := Int.not_lt.mpr h0
    have htn : ord.toNat < vals.length := by
      have hcast : ord = (ord.toNat : Int) := (Int.toNat_of_nonneg h0).symm
      rw [hcast] at hlt
      exact_mod_cast hlt
    rw [hs] at hrun
    simp [he, hv, hnle, hnneg, htn] at hrun
    exact ⟨hrun.1.symm, htn, hrun.2.1.symm⟩

/-- Witness for C4 amended, exercising the unregistered-type, the
out-of-range and the in-range outcomes on concrete buffers. -/
theorem enumItem_read_error_conditions_witness :
    (EnumItem.read storageA ⟨0, none, none, none⟩ ⟨[(9 : Int), 0], 0⟩).1 =
      .error (.enumSerializationError false) ∧
    (EnumItem.read storageA ⟨0, none, none, none⟩ ⟨[(1 : Int), 7], 0⟩).1 =
      .error (.enumSerializationError false) ∧
    (EnumItem.read storageA ⟨0, none, none, none⟩ ⟨[(1 : Int), 0], 0⟩).1 = .ok () :=
  ⟨(enumItem_read_error_conditions storageA 9 0 _ _ _ rfl).1 rfl,
   (enumItem_read_error_conditions storageA 1 7 _ _ _ rfl).2.2.2.1
     ⟨1, true, some [("A", 10)]⟩ [("A", 10)] rfl rfl rfl (by decide),
   ((enumItem_read_error_conditions storageA 1 0 _ _ _ rfl).2.2.2.2.2
     ⟨1, true, some [("A", 10)]⟩ [("A", 10)] rfl rfl rfl (by decide) (by decide)).1⟩

/-! ## C5 - all nodes down means cluster unavailable -/

/-- C5 (spec-modelled Router): when the client has zero open Connections -
every connection in the pool is Closed - every dispatched cache operation
fails with the cluster-unavailable error (the dispatch is a total function,
so it returns this error rather than hanging, and in particular it does not
succeed). -/
theorem router_all_nodes_down (pool : List Conn) (owner : Nat) (result : α)
    (hclosed : ∀ c ∈ pool, c.isOpen = false) :
    routerDispatch pool owner result = .error .clusterUnavailable := by
  unfold routerDispatch
  cases hf : pool.find? (fun c => c.nodeId == owner) with
  | some c =>
    have hc : c.isOpen = false := hclosed c (List.mem_of_find?_eq_some hf)
    have herase : (pool.erase c).find? (fun c2 => c2.isOpen) = none := by
      rw [List.find?_eq_none]
      intro x hx
      simp [hclosed x (List.mem_of_mem_erase hx)]
    simp [hf, hc, herase]
  | none =>
    have hnone : pool.find? (fun c => c.isOpen) = none := by
      rw [List.find?_eq_none]
      intro x hx
      simp [hclosed x hx]
    simp [hf, hnone]

/-- Witness for C5: a pool of two closed connections fails with
cluster-unavailable. -/
theorem router_all_nodes_down_witness :
    routerDispatch [⟨0, false⟩, ⟨1, false⟩] 0 (42 : Nat) =
      .error .clusterUnavailable :=
  router_all_nodes_down [⟨0, false⟩, ⟨1, false⟩] 0 42 (by decide)

/-! ## C6 - fallback to another open connection -/

/-- C6 (spec-modelled Router): when every Connection to the node owning the
key's partition is Closed but at least one other Connection is open, the
dispatch succeeds via a fallback Connection (retried once after discovering
the closed one) and returns the correct result - the same result the owning
node would have produced, since per the spec any node serves the operation
correctly. -/
theorem router_fallback_success (pool : List Conn) (owner : Nat) (result : α)
    (hown : ∀ c ∈ pool, c.nodeId = owner → c.isOpen = false)
    (c2 : Conn) (hc2 : c2 ∈ pool) (hopen : c2.isOpen = true) :
    routerDispatch pool owner result = .ok result := by
  unfold routerDispatch
  cases hf : pool.find? (fun c => c.nodeId == owner) with
  | some c =>
    have hmem : c ∈ pool := List.mem_of_find?_eq_some hf
    have hpc := List.find?_some hf
    have hco : c.isOpen = false := hown c hmem (by simpa using hpc)
    have hne : c2 ≠ c := by
      intro h
      rw [h, hco] at hopen
      cases hopen
    have hc2e : c2 ∈ pool.erase c := (List.mem_erase_of_ne hne).mpr hc2
    have hfind : (pool.erase c).find? (fun x => x.isOpen) ≠ none := by
      intro hnone
      rw [List.find?_eq_none] at hnone
      exact absurd hopen (by simpa using hnone c2 hc2e)
    cases hg : (pool.erase c).find? (fun x => x.isOpen) with
    | none => exact absurd hg hfind
    | some d => simp [hf, hco, hg]
  | none =>
    have hfind : pool.find? (fun x => x.isOpen) ≠ none := by
      intro hnone
      rw [List.find?_eq_none] at hnone
      exact absurd hopen (by simpa using hnone c2 hc2)
    cases hg : pool.find? (fun x => x.isOpen) with
    | none => exact absurd hg hfind
    | some d => simp [hf, hg]

/-- Witness for C6: with the owning node 0 closed and node 1 open, the
operation still succeeds with the correct result. -/
theorem router_fallback_success_witness :
    routerDispatch [⟨0, false⟩, ⟨1, true⟩] 0 (42 : Nat) = .ok 42 :=
  router_fallback_success [⟨0, false⟩, ⟨1, true⟩] 0 42 (by decide)
    ⟨1, true⟩ (by decide) rfl

end GridGain
